import Mathlib

/-!
Verification of the request dispatcher of the atcoder-mcp server
(`src/main.rs`).

The development shallowly embeds the dispatcher loop of `main` together
with the envelope construction and the pure control flow of the two tool
handlers `fetch_problem` and `fetch_editorial`.  JSON values are modelled
by the inductive type `Json`; the network exchange performed by reqwest and
the HTML extraction performed by scraper are abstracted into a
`FetchOutcome` supplied by an arbitrary `fetcher` argument, while every
branch that the Rust source takes on such an outcome (status check, error
formatting, selector miss) is embedded faithfully.  Each handled input line
is mapped to a `StepResult` recording the stdout lines (as `Json` values),
the stderr diagnostics and the fetch calls issued.
-/

/-- JSON values as handled by serde_json.  Numbers are restricted to
integers, which covers every number appearing in this development; objects
are ordered field lists (objects decoded from the wire have unique keys). -/
inductive Json where
  | null
  | bool (b : Bool)
  | num (n : Int)
  | str (s : String)
  | arr (elems : List Json)
  | obj (fields : List (String × Json))

/-- Indexing `v[key]` of serde_json (`impl Index<str> for Value`): on an
object, the value stored under the key, `null` when the key is absent; on
every non-object value the result is `null` and no panic occurs. -/
def jsonIndex (v : Json) (key : String) : Json :=
  match v with
  | .obj fields => (fields.lookup key).getD .null
  | _ => .null

/-- `Value::as_str` of serde_json: the string when the value is a JSON
string, `none` otherwise. -/
def asStr : Json → Option String
  | .str s => some s
  | _ => none

/-- The deserialized request struct of main.rs (lines 7 to 12).  As with
serde `Option` fields, a field that is missing and a field that is JSON
`null` both decode to `none`. -/
structure JsonRcpRequest where
  method : String
  params : Option Json
  id : Option Json

/-- serde decoding of one optional struct field from an object: absent or
JSON null gives `none`, any other stored value gives `some`. -/
def optField (fields : List (String × Json)) (key : String) : Option Json :=
  match fields.lookup key with
  | none => none
  | some .null => none
  | some v => some v

/-- serde_json decoding of a line (already parsed into a `Json` value) into
`JsonRcpRequest`: the value must be an object whose `method` field is a
string; `params` and `id` are optional.  Anything else is a decode failure,
which the dispatcher loop logs and skips. -/
def parseRequest : Json → Option JsonRcpRequest
  | .obj fields =>
    match fields.lookup "method" with
    | some (.str m) => some ⟨m, optField fields "params", optField fields "id"⟩
    | _ => none
  | _ => none

/-- One raw input line, abstracted to the three cases the loop in `main`
distinguishes: the empty line (skipped before parsing), a line that is not
valid JSON (serde_json parse error), and a line parsing to a JSON value. -/
inductive Line where
  | blank
  | malformed
  | json (v : Json)

/-- A stderr diagnostic produced by the dispatcher: the eprintln for a
parse error (main.rs line 103) or for an unknown tool (line 222). -/
inductive LogEntry where
  | parseError
  | unknownTool (toolName : String)

/-- A call issued to one of the two fetch routines, with the two string
arguments extracted from the request. -/
inductive FetchCall where
  | problem (contest_id problem_id : String)
  | editorial (contest_id problem_id : String)

/-- Outcome of the external effects of a fetch routine: either the reqwest
client failed (builder error, send error or body-read error, surfacing as
`Err` with the given message), or an HTTP response arrived with the given
status code and, abstracting the scraper selector step, `extracted` is the
cleaned text of the selected element when the selector matches and `none`
when it does not. -/
inductive FetchOutcome where
  | networkFailure (message : String)
  | response (status : Nat) (extracted : Option String)

/-- `StatusCode::is_success` of the http crate: a 2xx status. -/
def isSuccessStatus (code : Nat) : Bool :=
  decide (200 ≤ code) && decide (code < 300)

/-- Canonical reason phrase of an HTTP status code, as in the http crate
(`StatusCode::canonical_reason`), restricted to common codes. -/
def canonicalReason (code : Nat) : String :=
  if code = 200 then "OK"
  else if code = 301 then "Moved Permanently"
  else if code = 302 then "Found"
  else if code = 403 then "Forbidden"
  else if code = 404 then "Not Found"
  else if code = 429 then "Too Many Requests"
  else if code = 500 then "Internal Server Error"
  else if code = 503 then "Service Unavailable"
  else "<unknown status code>"

/-- Model of the `Display` instance of `http::StatusCode` (re-exported by
reqwest and used by the `format!` calls in main.rs lines 29 to 32 and 65 to
68): the numeric code followed by a space and the canonical reason. -/
def statusDisplay (code : Nat) : String :=
  toString code ++ " " ++ canonicalReason code

/-- `fetch_problem` of main.rs (lines 15 to 49), with the network exchange
and HTML selection abstracted into the `FetchOutcome` argument: a reqwest
failure propagates as `Err`; a non-success status yields
`Ok` text reporting the status via its `Display`; a success status yields
either the extracted problem statement or the fixed selector-miss text. -/
def fetch_problem : FetchOutcome → Except String String
  | .networkFailure message => .error message
  | .response status extracted =>
    if !(isSuccessStatus status) then
      .ok ("Error: Failed to fetch page. Status: " ++ statusDisplay status)
    else
      match extracted with
      | some text => .ok text
      | none => .ok "Error: Could not find problem statement in HTML."

/-- `fetch_editorial` of main.rs (lines 52 to 88), abstracted in the same
way as `fetch_problem` but with the editorial-specific messages. -/
def fetch_editorial : FetchOutcome → Except String String
  | .networkFailure message => .error message
  | .response status extracted =>
    if !(isSuccessStatus status) then
      .ok ("Error: Failed to fetch editorial page. Status: " ++ statusDisplay status)
    else
      match extracted with
      | some text => .ok text
      | none => .ok "Error: Could not find content in editorial page."

/-- The response envelope built by every `json!` reply in `main`: the
`jsonrpc` tag, the echoed `id` (serde_json serializes a `None` id as JSON
`null`) and the `result` payload. -/
def response (id : Option Json) (result : Json) : Json :=
  .obj [("jsonrpc", .str "2.0"), ("id", id.getD .null), ("result", result)]

/-- The `initialize` result payload (main.rs lines 112 to 125). -/
def initializeResult : Json :=
  .obj [("protocolVersion", .str "2024-11-05"),
        ("capabilities", .obj [("tools", .obj [])]),
        ("serverInfo", .obj [("name", .str "atcoder-hint-mcp"),
                             ("version", .str "0.1.0")])]

/-- The descriptor of the `fetch_problem` tool in the `tools/list` reply
(main.rs lines 140 to 151). -/
def problemDescriptor : Json :=
  .obj [("name", .str "fetch_problem"),
        ("description", .str "AtCoderの問題文を取得します。contest_id (例: abc335) と problem_id (例: abc335_a) が必要です。"),
        ("inputSchema",
          .obj [("type", .str "object"),
                ("properties",
                  .obj [("contest_id", .obj [("type", .str "string")]),
                        ("problem_id", .obj [("type", .str "string")])]),
                ("required", .arr [.str "contest_id", .str "problem_id"])])]

/-- The descriptor of the `fetch_editorial` tool in the `tools/list` reply
(main.rs lines 152 to 163). -/
def editorialDescriptor : Json :=
  .obj [("name", .str "fetch_editorial"),
        ("description", .str "AtCoderの解説ページを取得します。公式解説やユーザー解説の一覧とリンクが取得できます。contest_id と problem_id が必要です。"),
        ("inputSchema",
          .obj [("type", .str "object"),
                ("properties",
                  .obj [("contest_id", .obj [("type", .str "string")]),
                        ("problem_id", .obj [("type", .str "string")])]),
                ("required", .arr [.str "contest_id", .str "problem_id"])])]

/-- The `tools/list` result payload (main.rs lines 136 to 165): the static
registry of the two tools. -/
def toolsListResult : Json :=
  .obj [("tools", .arr [problemDescriptor, editorialDescriptor])]

/-- The `tools/call` result payload: a content list with a single text
part (main.rs lines 185 to 194 and 207 to 216). -/
def toolCallResult (text : String) : Json :=
  .obj [("content", .arr [.obj [("type", .str "text"), ("text", .str text)]])]

/-- Effects of handling one line: the stdout reply lines (as JSON values),
the stderr diagnostics, and the fetch calls issued, each in order. -/
structure StepResult where
  output : List Json
  logs : List LogEntry
  fetchCalls : List FetchCall

/-- The empty effect. -/
def StepResult.empty : StepResult := ⟨[], [], []⟩

/-- Sequential composition of effects. -/
def StepResult.append (a b : StepResult) : StepResult :=
  ⟨a.output ++ b.output, a.logs ++ b.logs, a.fetchCalls ++ b.fetchCalls⟩

/-- The method dispatch of `main` (main.rs lines 109 to 231) on one decoded
request.  The `fetcher` argument supplies the outcome of the external
effects of each fetch call; everything else follows the source: the four
recognized methods, the silent skip when `params` is absent or
`params.name` is not a string, the empty-string defaulting of the two
arguments, the `unwrap_or_else` conversion of a fetch `Err` into reply
text (with the extra `Error: ` prefix only in the editorial arm), and the
stderr log for an unknown tool name. -/
def handleRequest (fetcher : FetchCall → FetchOutcome) (req : JsonRcpRequest) :
    StepResult :=
  if req.method = "initialize" then
    ⟨[response req.id initializeResult], [], []⟩
  else if req.method = "notifications/initialized" then
    StepResult.empty
  else if req.method = "tools/list" then
    ⟨[response req.id toolsListResult], [], []⟩
  else if req.method = "tools/call" then
    match req.params with
    | some params =>
      match asStr (jsonIndex params "name") with
      | some toolName =>
        if toolName = "fetch_problem" then
          let args := jsonIndex params "arguments"
          let contest_id := (asStr (jsonIndex args "contest_id")).getD ""
          let problem_id := (asStr (jsonIndex args "problem_id")).getD ""
          let result_text :=
            match fetch_problem (fetcher (.problem contest_id problem_id)) with
            | .ok text => text
            | .error e => e
          ⟨[response req.id (toolCallResult result_text)], [],
            [.problem contest_id problem_id]⟩
        else if toolName = "fetch_editorial" then
          let args := jsonIndex params "arguments"
          let contest_id := (asStr (jsonIndex args "contest_id")).getD ""
          let problem_id := (asStr (jsonIndex args "problem_id")).getD ""
          let result_text :=
            match fetch_editorial (fetcher (.editorial contest_id problem_id)) with
            | .ok text => text
            | .error e => "Error: " ++ e
          ⟨[response req.id (toolCallResult result_text)], [],
            [.editorial contest_id problem_id]⟩
        else
          ⟨[], [.unknownTool toolName], []⟩
      | none => StepResult.empty
    | none => StepResult.empty
  else
    StepResult.empty

/-- Handling of one raw line by the loop in `main` (lines 93 to 106): a
blank line is skipped silently, a line that fails to parse or to decode
into a request is logged and skipped, and a decoded request is dispatched. -/
def handleLine (fetcher : FetchCall → FetchOutcome) : Line → StepResult
  | .blank => StepResult.empty
  | .malformed => ⟨[], [.parseError], []⟩
  | .json v =>
    match parseRequest v with
    | none => ⟨[], [.parseError], []⟩
    | some req => handleRequest fetcher req

/-- The stdin loop of `main`: lines are handled strictly in order, one at a
time, and the effects concatenate. -/
def mainLoop (fetcher : FetchCall → FetchOutcome) : List Line → StepResult
  | [] => StepResult.empty
  | l :: rest => (handleLine fetcher l).append (mainLoop fetcher rest)

/-- Whether a line decodes into a request: only a JSON line whose value
decodes via `parseRequest`. -/
def decodesLine : Line → Bool
  | .json v => (parseRequest v).isSome
  | _ => false

/-- The methods for which the dispatcher emits a reply, read off the case
split of `handleRequest`: `initialize`, `tools/list`, and `tools/call`
whose `params` carry a string `name` naming one of the two registered
tools.  Presence of an `id` plays no role. -/
def repliesTo (req : JsonRcpRequest) : Bool :=
  if req.method = "initialize" then true
  else if req.method = "notifications/initialized" then false
  else if req.method = "tools/list" then true
  else if req.method = "tools/call" then
    match req.params with
    | some params =>
      match asStr (jsonIndex params "name") with
      | some toolName => toolName = "fetch_problem" || toolName = "fetch_editorial"
      | none => false
    | none => false
  else false

/-- Whether a fetch outcome is a failure in the sense of the Fetcher
contract: a network failure, a non-success HTTP status, or a selector miss
on a success status. -/
def FetchOutcome.isFailure : FetchOutcome → Bool
  | .networkFailure _ => true
  | .response status extracted => !(isSuccessStatus status) || extracted.isNone

/-- A fetcher whose every call fails with a network error; used to
instantiate theorems at concrete inputs. -/
def stubFetcher : FetchCall → FetchOutcome :=
  fun _ => .networkFailure "error sending request"

/-- A fetcher whose every call receives an HTTP 404 response. -/
def fetcher404 : FetchCall → FetchOutcome :=
  fun _ => .response 404 none

/-- The `tools/call` params of the 404 scenario: tool `fetch_problem` with
contest abc335 and problem abc335_a. -/
def callParams335 : Json :=
  .obj [("name", .str "fetch_problem"),
        ("arguments", .obj [("contest_id", .str "abc335"),
                            ("problem_id", .str "abc335_a")])]

/-- C1, counterexample: the line carrying method initialize and no id
decodes to a request without an id, yet the dispatcher writes one output
line, and the id member of that line is JSON null; so a recognized method
arriving without an id does produce output, contrary to the claim. -/
theorem C1_counterexample :
    parseRequest (Json.obj [("method", Json.str "initialize")])
      = some ⟨"initialize", none, none⟩
    ∧ (handleRequest stubFetcher ⟨"initialize", none, none⟩).output.length = 1
    ∧ (handleRequest stubFetcher ⟨"initialize", none, none⟩).output.map
        (fun r => jsonIndex r "id") = [Json.null] :=
  ⟨rfl, rfl, rfl⟩

/-- C1 (amended): a reply line is emitted if and only if the method is a
replying one — initialize, tools/list, or tools/call resolving to a
registered tool — and, when it is, exactly one line; whether the request
carried an id is irrelevant to emission, and the id member of the emitted
reply is the id of the request when one was carried and JSON null when
none was. -/
theorem C1_reply_iff_replying_method (fetcher : FetchCall → FetchOutcome)
    (req : JsonRcpRequest) :
    (handleRequest fetcher req).output.length = (if repliesTo req then 1 else 0)
    ∧ (handleRequest fetcher req).output.map (fun r => jsonIndex r "id")
        = (if repliesTo req then [req.id.getD Json.null] else []) := by
  obtain ⟨m, p, i⟩ := req
  by_cases h1 : m = "initialize"
  · subst h1; exact ⟨rfl, rfl⟩
  by_cases h2 : m = "notifications/initialized"
  · subst h2; exact ⟨rfl, rfl⟩
  by_cases h3 : m = "tools/list"
  · subst h3; exact ⟨rfl, rfl⟩
  by_cases h4 : m = "tools/call"
  · subst h4
    cases p with
    | none => exact ⟨rfl, rfl⟩
    | some params =>
      cases hv : jsonIndex params "name" with
      | str toolName =>
        by_cases hfp : toolName = "fetch_problem"
        · subst hfp
          constructor <;> (simp only [handleRequest, repliesTo]; rw [hv]; rfl)
        · by_cases hfe : toolName = "fetch_editorial"
          · subst hfe
            constructor <;> (simp only [handleRequest, repliesTo]; rw [hv]; rfl)
          · constructor <;>
              (simp only [handleRequest, repliesTo]; rw [hv];
                simp +decide [asStr, hfp, hfe, StepResult.empty])
      | null =>
        constructor <;> (simp only [handleRequest, repliesTo]; rw [hv]; rfl)
      | bool b =>
        constructor <;> (simp only [handleRequest, repliesTo]; rw [hv]; rfl)
      | num n =>
        constructor <;> (simp only [handleRequest, repliesTo]; rw [hv]; rfl)
      | arr elems =>
        constructor <;> (simp only [handleRequest, repliesTo]; rw [hv]; rfl)
      | obj fields =>
        constructor <;> (simp only [handleRequest, repliesTo]; rw [hv]; rfl)
  · constructor <;> simp [handleRequest, repliesTo, h1, h2, h3, h4, StepResult.empty]

/-- C2, counterexample: at the 404 scenario of the claim the emitted text
is the status rendered with its canonical reason, which differs from the
text asserted by the claim. -/
theorem C2_counterexample :
    (handleRequest fetcher404
        ⟨"tools/call", some callParams335, some (Json.num 2)⟩).output
      = [response (some (Json.num 2))
          (toolCallResult "Error: Failed to fetch page. Status: 404 Not Found")]
    ∧ "Error: Failed to fetch page. Status: 404 Not Found"
        ≠ "Error: Failed to fetch page. Status: 404" :=
  ⟨rfl, by decide⟩

/-- C2 (amended): when every fetch outcome is a failure variant, a
tools/call of a registered tool replies with a single success envelope
whose result is one text content part and which carries no error member;
in particular an HTTP 404 on fetch_problem yields the text
Error: Failed to fetch page. Status: 404 Not Found. -/
theorem C2_fetch_failure_success_envelope (fetcher : FetchCall → FetchOutcome)
    (id : Option Json) (params : Json) (toolName : String)
    (hn : jsonIndex params "name" = Json.str toolName)
    (hreg : toolName = "fetch_problem" ∨ toolName = "fetch_editorial")
    (hfail : ∀ call, (fetcher call).isFailure = true) :
    (∃ t : String,
      (handleRequest fetcher ⟨"tools/call", some params, id⟩).output
        = [response id (toolCallResult t)])
    ∧ (handleRequest fetcher ⟨"tools/call", some params, id⟩).output.map
        (fun r => jsonIndex r "error") = [Json.null]
    ∧ (toolName = "fetch_problem" →
        (∀ call, ∃ extracted, fetcher call = .response 404 extracted) →
        (handleRequest fetcher ⟨"tools/call", some params, id⟩).output
          = [response id
              (toolCallResult "Error: Failed to fetch page. Status: 404 Not Found")]) := by
  rcases hreg with h | h <;> subst h
  · have hshape :
        (handleRequest fetcher ⟨"tools/call", some params, id⟩).output
          = [response id (toolCallResult
              (match fetch_problem (fetcher (FetchCall.problem
                  ((asStr (jsonIndex (jsonIndex params "arguments") "contest_id")).getD "")
                  ((asStr (jsonIndex (jsonIndex params "arguments") "problem_id")).getD ""))) with
                | Except.ok text => text
                | Except.error e => e))] := by
      simp +decide [handleRequest, hn, asStr]
    refine ⟨⟨_, hshape⟩, ?_, ?_⟩
    · rw [hshape]; rfl
    · intro _ h404
      obtain ⟨extracted, he⟩ :=
        h404 (FetchCall.problem
          ((asStr (jsonIndex (jsonIndex params "arguments") "contest_id")).getD "")
          ((asStr (jsonIndex (jsonIndex params "arguments") "problem_id")).getD ""))
      rw [hshape, he]; rfl
  · have hshape :
        (handleRequest fetcher ⟨"tools/call", some params, id⟩).output
          = [response id (toolCallResult
              (match fetch_editorial (fetcher (FetchCall.editorial
                  ((asStr (jsonIndex (jsonIndex params "arguments") "contest_id")).getD "")
                  ((asStr (jsonIndex (jsonIndex params "arguments") "problem_id")).getD ""))) with
                | Except.ok text => text
                | Except.error e => "Error: " ++ e))] := by
      simp +decide [handleRequest, hn, asStr]
    refine ⟨⟨_, hshape⟩, ?_, ?_⟩
    · rw [hshape]; rfl
    · intro habs
      exact absurd habs (by decide)

/-- C2, witness: the scenario of the claim, with every fetch receiving an
HTTP 404, instantiated in the amended theorem. -/
theorem C2_witness :
    (handleRequest fetcher404
        ⟨"tools/call", some callParams335, some (Json.num 2)⟩).output
      = [response (some (Json.num 2))
          (toolCallResult "Error: Failed to fetch page. Status: 404 Not Found")] :=
  (C2_fetch_failure_success_envelope fetcher404 (some (Json.num 2)) callParams335
      "fetch_problem" rfl (Or.inl rfl) (fun _ => rfl)).2.2 rfl (fun _ => ⟨none, rfl⟩)

/-- C3: for every request with a replying method that carries an id, the
dispatcher emits exactly one reply and the id member of that reply is the
id of the request, whatever JSON value it is. -/
theorem C3_id_echoed (fetcher : FetchCall → FetchOutcome) (req : JsonRcpRequest)
    (v : Json) (hrep : repliesTo req = true) (hid : req.id = some v) :
    (handleRequest fetcher req).output.map (fun r => jsonIndex r "id") = [v] := by
  obtain ⟨m, p, i⟩ := req
  dsimp only at hid
  subst hid
  by_cases h1 : m = "initialize"
  · subst h1; rfl
  by_cases h2 : m = "tools/list"
  · subst h2; rfl
  by_cases h3 : m = "tools/call"
  · subst h3
    cases p with
    | none => simp +decide [repliesTo] at hrep
    | some params =>
      cases hv : jsonIndex params "name" with
      | str toolName =>
        by_cases hfp : toolName = "fetch_problem"
        · subst hfp; simp only [handleRequest]; rw [hv]; rfl
        · by_cases hfe : toolName = "fetch_editorial"
          · subst hfe; simp only [handleRequest]; rw [hv]; rfl
          · rw [repliesTo] at hrep
            simp +decide [hv, asStr, hfp, hfe] at hrep
      | null => rw [repliesTo] at hrep; simp +decide [hv, asStr] at hrep
      | bool b => rw [repliesTo] at hrep; simp +decide [hv, asStr] at hrep
      | num n => rw [repliesTo] at hrep; simp +decide [hv, asStr] at hrep
      | arr elems => rw [repliesTo] at hrep; simp +decide [hv, asStr] at hrep
      | obj fields => rw [repliesTo] at hrep; simp +decide [hv, asStr] at hrep
  · rw [repliesTo] at hrep
    simp [h1, h2, h3] at hrep

/-- C3, witness: an initialize request with numeric id 1 receives exactly
one reply whose id member is 1. -/
theorem C3_witness :
    (handleRequest stubFetcher ⟨"initialize", none, some (Json.num 1)⟩).output.map
      (fun r => jsonIndex r "id") = [Json.num 1] :=
  C3_id_echoed stubFetcher ⟨"initialize", none, some (Json.num 1)⟩ (Json.num 1) rfl rfl

/-- C4: the initialize request with id 1 is answered by exactly one line
carrying jsonrpc 2.0, id 1, and a result with the protocol version, the
empty tools capability object, and the server name and version; nothing is
logged and no fetch is issued. -/
theorem C4_initialize_scenario (fetcher : FetchCall → FetchOutcome) :
    handleLine fetcher
      (Line.json (Json.obj [("method", Json.str "initialize"), ("id", Json.num 1)]))
      = ⟨[Json.obj [("jsonrpc", Json.str "2.0"), ("id", Json.num 1),
            ("result", Json.obj [("protocolVersion", Json.str "2024-11-05"),
              ("capabilities", Json.obj [("tools", Json.obj [])]),
              ("serverInfo", Json.obj [("name", Json.str "atcoder-hint-mcp"),
                ("version", Json.str "0.1.0")])])]], [], []⟩ :=
  rfl

/-- C5, counterexample: a tools/call line carrying an id but no params at
all decodes fine, yet the dispatcher forwards nothing to the Fetcher and
emits no reply, instead of treating the missing fields as empty-string
arguments. -/
theorem C5_counterexample :
    parseRequest (Json.obj [("method", Json.str "tools/call"), ("id", Json.num 7)])
      = some ⟨"tools/call", none, some (Json.num 7)⟩
    ∧ (handleRequest stubFetcher ⟨"tools/call", none, some (Json.num 7)⟩).fetchCalls = []
    ∧ (handleRequest stubFetcher ⟨"tools/call", none, some (Json.num 7)⟩).output = [] :=
  ⟨rfl, rfl, rfl⟩

/-- C5 (amended): on a tools/call naming a registered tool, required
fields whose values are missing or not strings — including the case where
the whole arguments object is absent — are forwarded to the Fetcher as
empty strings and a reply is still produced; but when the params value is
entirely absent no tool is resolved, so nothing is forwarded and no reply
is emitted (see the counterexample). -/
theorem C5_missing_args_empty_strings (fetcher : FetchCall → FetchOutcome)
    (id : Option Json) (params : Json) (toolName : String)
    (hn : jsonIndex params "name" = Json.str toolName)
    (hreg : toolName = "fetch_problem" ∨ toolName = "fetch_editorial")
    (hc : asStr (jsonIndex (jsonIndex params "arguments") "contest_id") = none)
    (hp : asStr (jsonIndex (jsonIndex params "arguments") "problem_id") = none) :
    (handleRequest fetcher ⟨"tools/call", some params, id⟩).fetchCalls
      = [if toolName = "fetch_problem" then FetchCall.problem "" ""
         else FetchCall.editorial "" ""]
    ∧ (handleRequest fetcher ⟨"tools/call", some params, id⟩).output.length = 1 := by
  rcases hreg with h | h <;> subst h <;>
    cases hx : jsonIndex (jsonIndex params "arguments") "contest_id" <;>
      cases hy : jsonIndex (jsonIndex params "arguments") "problem_id" <;>
        first
          | (rw [hx] at hc; simp [asStr] at hc; done)
          | (rw [hy] at hp; simp [asStr] at hp; done)
          | (simp only [handleRequest]; rw [hn, hx, hy]; exact ⟨rfl, rfl⟩)

/-- C5, witness: calling fetch_problem with params that carry no arguments
at all issues one fetch with two empty-string arguments and one reply. -/
theorem C5_witness :
    (handleRequest stubFetcher ⟨"tools/call",
        some (Json.obj [("name", Json.str "fetch_problem")]), some (Json.num 4)⟩).fetchCalls
      = [if "fetch_problem" = "fetch_problem" then FetchCall.problem "" ""
         else FetchCall.editorial "" ""]
    ∧ (handleRequest stubFetcher ⟨"tools/call",
        some (Json.obj [("name", Json.str "fetch_problem")]), some (Json.num 4)⟩).output.length
      = 1 :=
  C5_missing_args_empty_strings stubFetcher (some (Json.num 4))
    (Json.obj [("name", Json.str "fetch_problem")]) "fetch_problem" rfl (Or.inl rfl) rfl rfl

/-- C6: a tools/call whose params name is a string that is not a
registered tool logs the unknown tool name to stderr and emits no reply,
issues no fetch, even when the request carries an id. -/
theorem C6_unknown_tool_logged_no_reply (fetcher : FetchCall → FetchOutcome)
    (id : Option Json) (params : Json) (toolName : String)
    (hn : jsonIndex params "name" = Json.str toolName)
    (h1 : toolName ≠ "fetch_problem") (h2 : toolName ≠ "fetch_editorial") :
    handleRequest fetcher ⟨"tools/call", some params, id⟩
      = ⟨[], [LogEntry.unknownTool toolName], []⟩ := by
  simp only [handleRequest]
  rw [hn]
  simp +decide [asStr, h1, h2]

/-- C6, witness: the bogus_tool scenario with id 3 of the claim. -/
theorem C6_witness :
    handleRequest stubFetcher ⟨"tools/call",
        some (Json.obj [("name", Json.str "bogus_tool"), ("arguments", Json.obj [])]),
        some (Json.num 3)⟩
      = ⟨[], [LogEntry.unknownTool "bogus_tool"], []⟩ :=
  C6_unknown_tool_logged_no_reply stubFetcher (some (Json.num 3))
    (Json.obj [("name", Json.str "bogus_tool"), ("arguments", Json.obj [])])
    "bogus_tool" rfl (by decide) (by decide)

/-- C7: a line that is blank or does not decode into a request contributes
no reply line and no fetch call, and the loop goes on to handle the rest
of the input exactly as it would have without that line; no decode failure
ends the run. -/
theorem C7_bad_lines_skipped (fetcher : FetchCall → FetchOutcome)
    (l : Line) (rest : List Line) (h : decodesLine l = false) :
    (mainLoop fetcher (l :: rest)).output = (mainLoop fetcher rest).output
    ∧ (mainLoop fetcher (l :: rest)).fetchCalls = (mainLoop fetcher rest).fetchCalls := by
  cases l with
  | blank => exact ⟨rfl, rfl⟩
  | malformed => exact ⟨rfl, rfl⟩
  | json v =>
    have hv : parseRequest v = none := by
      cases hx : parseRequest v with
      | none => rfl
      | some r => rw [decodesLine, hx] at h; exact Bool.noConfusion h
    constructor <;>
      simp [mainLoop, handleLine, hv, StepResult.append]

/-- C7, witness: a malformed line followed by a tools/list request yields
the same replies and fetch calls as the tools/list request alone. -/
theorem C7_witness :
    (mainLoop stubFetcher [Line.malformed,
        Line.json (Json.obj [("method", Json.str "tools/list"), ("id", Json.num 5)])]).output
      = (mainLoop stubFetcher
          [Line.json (Json.obj [("method", Json.str "tools/list"), ("id", Json.num 5)])]).output
    ∧ (mainLoop stubFetcher [Line.malformed,
        Line.json (Json.obj [("method", Json.str "tools/list"), ("id", Json.num 5)])]).fetchCalls
      = (mainLoop stubFetcher
          [Line.json (Json.obj [("method", Json.str "tools/list"), ("id", Json.num 5)])]).fetchCalls :=
  C7_bad_lines_skipped stubFetcher Line.malformed
    [Line.json (Json.obj [("method", Json.str "tools/list"), ("id", Json.num 5)])] rfl

/-- C8: a request whose method is the initialized notification, and more
generally any request whose method is none of initialize, tools/list and
tools/call, produces no reply, no log and no fetch, with or without an
id. -/
theorem C8_notifications_and_unknown_silent (fetcher : FetchCall → FetchOutcome)
    (req : JsonRcpRequest) (h1 : req.method ≠ "initialize")
    (h2 : req.method ≠ "tools/list") (h3 : req.method ≠ "tools/call") :
    handleRequest fetcher req = StepResult.empty := by
  obtain ⟨m, p, i⟩ := req
  simp only [handleRequest]
  simp only at h1 h2 h3
  simp [h1, h2, h3, ite_self]

/-- C8, witness: the initialized notification carrying an id receives no
reply. -/
theorem C8_witness :
    handleRequest stubFetcher ⟨"notifications/initialized", none, some (Json.num 6)⟩
      = StepResult.empty :=
  C8_notifications_and_unknown_silent stubFetcher
    ⟨"notifications/initialized", none, some (Json.num 6)⟩
    (by decide) (by decide) (by decide)

/-- C9: listing tools twice, in any request contexts and under any
fetchers, yields the same result payload both times, namely the fixed
registry listing the descriptors of fetch_problem and fetch_editorial. -/
theorem C9_tools_list_deterministic (f1 f2 : FetchCall → FetchOutcome)
    (p1 p2 id1 id2 : Option Json) :
    ((handleRequest f1 ⟨"tools/list", p1, id1⟩).output.map (fun r => jsonIndex r "result")
      = (handleRequest f2 ⟨"tools/list", p2, id2⟩).output.map (fun r => jsonIndex r "result"))
    ∧ (handleRequest f1 ⟨"tools/list", p1, id1⟩).output.map (fun r => jsonIndex r "result")
      = [toolsListResult]
    ∧ jsonIndex toolsListResult "tools" = Json.arr [problemDescriptor, editorialDescriptor]
    ∧ jsonIndex problemDescriptor "name" = Json.str "fetch_problem"
    ∧ jsonIndex editorialDescriptor "name" = Json.str "fetch_editorial" :=
  ⟨rfl, rfl, rfl, rfl, rfl⟩

/-- C10: a tools/call whose params value carries no string under the name
key — the key is absent or its value is not a JSON string — is dropped
silently: no fetch, no log and no reply, even when an id is present. -/
theorem C10_nonstring_name_silent (fetcher : FetchCall → FetchOutcome)
    (id : Option Json) (params : Json)
    (hn : asStr (jsonIndex params "name") = none) :
    handleRequest fetcher ⟨"tools/call", some params, id⟩ = StepResult.empty := by
  simp only [handleRequest]
  rw [hn]
  rfl

/-- C10, witness: calling with params whose name is the number 5 and with
id 9 produces nothing at all. -/
theorem C10_witness :
    handleRequest stubFetcher
      ⟨"tools/call", some (Json.obj [("name", Json.num 5)]), some (Json.num 9)⟩
      = StepResult.empty :=
  C10_nonstring_name_silent stubFetcher (some (Json.num 9))
    (Json.obj [("name", Json.num 5)]) rfl
